import Mathlib

set_option maxHeartbeats 1000000

/-! Shallow embedding of the mcp-mysql repository (main.py and test.py).

Python strings are modelled as Lean `String`, with the Python string
operations implemented over the underlying character lists.  External
collaborators (the MySQL driver, the MCP transport, the LLM endpoint and
the `json` module) are modelled as oracle functions supplied as inputs;
exceptions raised by Python code are modelled with `Except`. -/

/-- Python whitespace characters removed by `str.strip()`. -/
def isSpaceChar (c : Char) : Bool :=
  c == ' ' || c == '\t' || c == '\n' || c == '\r' || c == '\x0b' || c == '\x0c'

/-- `str.lower()` (ASCII case folding, which is all the validator needs). -/
def pyLower (s : String) : String := String.mk (s.data.map Char.toLower)

/-- `str.strip()` on a character list. -/
def pyStripL (l : List Char) : List Char :=
  ((l.dropWhile isSpaceChar).reverse.dropWhile isSpaceChar).reverse

/-- `str.strip()`. -/
def pyStrip (s : String) : String := String.mk (pyStripL s.data)

/-- `s.startswith(pre)`. -/
def pyStartswith (s pre : String) : Bool := pre.data.isPrefixOf s.data

/-- `s.endswith(suf)`. -/
def pyEndswith (s suf : String) : Bool := suf.data.isSuffixOf s.data

/-- Substring occurrence test on character lists (Python `in` on `str`). -/
def occursInside (needle : List Char) : List Char → Bool
  | [] => needle.isEmpty
  | c :: cs => needle.isPrefixOf (c :: cs) || occursInside needle cs

/-- Python `needle in hay` for strings. -/
def pyIn (needle hay : String) : Bool := occursInside needle.data hay.data

/-! main.py, lines 104-108: the Safety Validator. -/

/-- The denylist from `is_safe_query` (`unsafe_keywords` in main.py). -/
def denylist_keywords : List String :=
  ["insert", "update", "delete", "drop", "alter", "truncate", "create"]

/-- main.py `is_safe_query`: only statements whose trimmed lowercase form
starts with `select` and whose lowercase form contains no denylisted
keyword are considered safe. -/
def is_safe_query (sql : String) : Bool :=
  let sql_lower := pyLower sql
  pyStartswith (pyStrip sql_lower) "select" &&
    !(denylist_keywords.any (fun k => pyIn k sql_lower))

example : is_safe_query "SELECT * FROM users" = true := by rfl
example : is_safe_query "select * from users; DROP TABLE users" = false := by rfl
example : is_safe_query "DELETE FROM users" = false := by rfl
example : is_safe_query "select created_at from t" = false := by rfl

/-! A minimal model of Python JSON values (the dictionaries and lists
produced by `json.loads` and handed around by both source files).
Dictionaries are association lists, preserving insertion order. -/

inductive JVal where
  | null
  | bool (b : Bool)
  | num (n : Int)
  | str (s : String)
  | arr (items : List JVal)
  | obj (fields : List (String × JVal))

/-- A row produced by a `MySQLdb` dictionary cursor. -/
abbrev Row := List (String × JVal)

/-- Python dict assignment `d[k] = v`: replace in place, or append. -/
def jSet : List (String × JVal) → String → JVal → List (String × JVal)
  | [], k, v => [(k, v)]
  | (k0, v0) :: rest, k, v =>
    if k0 == k then (k0, v) :: rest else (k0, v0) :: jSet rest k v

mutual

/-- `json.dumps` (string escaping elided; used only inside diagnostic text). -/
def jdump : JVal → String
  | .null => "null"
  | .bool true => "true"
  | .bool false => "false"
  | .num n => toString n
  | .str s => "\"" ++ s ++ "\""
  | .arr items => "[" ++ jdumpList items ++ "]"
  | .obj fields => "\x7b" ++ jdumpFields fields ++ "\x7d"

def jdumpList : List JVal → String
  | [] => ""
  | [v] => jdump v
  | v :: vs => jdump v ++ ", " ++ jdumpList vs

def jdumpFields : List (String × JVal) → String
  | [] => ""
  | [(k, v)] => "\"" ++ k ++ "\": " ++ jdump v
  | (k, v) :: kvs => "\"" ++ k ++ "\": " ++ jdump v ++ ", " ++ jdumpFields kvs

end

/-- Python `str(v)` as used in f-string interpolation. -/
def pyStr : JVal → String
  | .str s => s
  | .null => "None"
  | .bool true => "True"
  | .bool false => "False"
  | .num n => toString n
  | v => jdump v

/-- Python truthiness of a JSON value. -/
def pyTruthy : JVal → Bool
  | .null => false
  | .bool b => b
  | .num n => n != 0
  | .str s => !s.isEmpty
  | .arr l => !l.isEmpty
  | .obj f => !f.isEmpty

/-- Python `key in v` (`TypeError` on non-iterable values). -/
def pyInJVal (key : String) : JVal → Except String Bool
  | .obj fields => .ok (fields.any (fun kv => kv.1 == key))
  | .str s => .ok (pyIn key s)
  | .arr items => .ok (items.any (fun v => match v with | .str s => s == key | _ => false))
  | _ => .error "TypeError: argument is not iterable"

/-- Python `v.get(key)` (`AttributeError` unless `v` is a dict). -/
def dictGetAttr (v : JVal) (key : String) : Except String (Option JVal) :=
  match v with
  | .obj fields => .ok (List.lookup key fields)
  | _ => .error "AttributeError: object has no attribute get"

/-! main.py, lines 110-161: the Query Executor (`query_data`).

The MySQL driver is an oracle: `connectOk` is the outcome of
`MySQLdb.connect`, `cursorOk` of `conn.cursor(...)`, `runStmt s` of
`cursor.execute(s)` (plus `fetchall` for the queried statement), and
`commitOk` of `conn.commit()`.  The trace records every database
interaction performed, in order. -/

inductive DBEvent where
  | connect
  | exec (stmt : String)
  | commit
  | rollback
  | close
deriving DecidableEq

structure MySQLConn where
  connectOk : Except String Unit
  cursorOk : Except String Unit
  runStmt : String → Except String (List Row)
  commitOk : Except String Unit

/-- The result dictionary of `query_data`; absent keys are `none`. -/
structure QueryResult where
  success : Bool
  results : Option (List Row)
  rowCount : Option Nat
  error : Option String

/-- The fixed rejection message of `query_data`. -/
def blocked_message : String :=
  "Potentially unsafe query detected. Only SELECT queries are allowed."

/-- main.py `query_data`: reject unsafe SQL without touching the database;
otherwise run the statement inside a read-only transaction, committing on
success and rolling back when execution raises.  A raised exception that
is not caught by the inner handler (connection, cursor or transaction
set-up failure) propagates as `.error`. -/
def query_data (conn : MySQLConn) (sql : String) :
    Except String QueryResult × List DBEvent :=
  if is_safe_query sql then
    match conn.connectOk with
    | .error e => (.error e, [])
    | .ok _ =>
      match conn.cursorOk with
      | .error e => (.error e, [.connect, .close])
      | .ok _ =>
        match conn.runStmt "SET TRANSACTION READ ONLY" with
        | .error e => (.error e, [.connect, .exec "SET TRANSACTION READ ONLY", .close])
        | .ok _ =>
          match conn.runStmt "START TRANSACTION" with
          | .error e =>
            (.error e,
             [.connect, .exec "SET TRANSACTION READ ONLY", .exec "START TRANSACTION", .close])
          | .ok _ =>
            match conn.runStmt sql with
            | .error e =>
              (.ok { success := false, results := none, rowCount := none, error := some e },
               [.connect, .exec "SET TRANSACTION READ ONLY", .exec "START TRANSACTION",
                .exec sql, .rollback, .close])
            | .ok results =>
              match conn.commitOk with
              | .error e =>
                (.ok { success := false, results := none, rowCount := none, error := some e },
                 [.connect, .exec "SET TRANSACTION READ ONLY", .exec "START TRANSACTION",
                  .exec sql, .commit, .rollback, .close])
              | .ok _ =>
                (.ok { success := true, results := some results,
                       rowCount := some results.length, error := none },
                 [.connect, .exec "SET TRANSACTION READ ONLY", .exec "START TRANSACTION",
                  .exec sql, .commit, .close])
  else
    (.ok { success := false, results := none, rowCount := none, error := some blocked_message },
     [])

/-! main.py, lines 40-80: the server-side schema resource (`get_schema`). -/

/-- `table_names = [list(table.values())[0] for table in tables]`
(an empty row dictionary raises `IndexError`). -/
def table_names_of (rows : List Row) : Except String (List String) :=
  rows.mapM (fun r =>
    match (r.map Prod.snd).head? with
    | some v => .ok (pyStr v)
    | none => .error "IndexError: list index out of range")

/-- Build one column entry of the schema dictionary from a `DESCRIBE` row
(main.py lines 61-69; a missing key raises `KeyError`). -/
def column_entry (column : Row) : Except String JVal :=
  match List.lookup "Field" column, List.lookup "Type" column,
        List.lookup "Null" column, List.lookup "Key" column,
        List.lookup "Default" column, List.lookup "Extra" column with
  | some f, some ty, some nu, some k, some d, some ex =>
    .ok (.obj [("name", f), ("type", ty), ("null", nu),
               ("key", k), ("default", d), ("extra", ex)])
  | _, _, _, _, _, _ => .error "KeyError"

/-- `DESCRIBE` each table in turn, accumulating the schema mapping and the
trace of statements executed. -/
def describe_tables (conn : MySQLConn) : List String →
    Except String (List (String × JVal)) × List DBEvent
  | [] => (.ok [], [])
  | t :: ts =>
    match conn.runStmt ("DESCRIBE `" ++ t ++ "`") with
    | .error e => (.error e, [.exec ("DESCRIBE `" ++ t ++ "`")])
    | .ok columns =>
      match columns.mapM column_entry with
      | .error e => (.error e, [.exec ("DESCRIBE `" ++ t ++ "`")])
      | .ok table_schema =>
        match describe_tables conn ts with
        | (.error e, evs) => (.error e, .exec ("DESCRIBE `" ++ t ++ "`") :: evs)
        | (.ok rest, evs) =>
          (.ok ((t, .arr table_schema) :: rest), .exec ("DESCRIBE `" ++ t ++ "`") :: evs)

/-- main.py `get_schema`: unconditional full introspection — `SHOW TABLES`
followed by a `DESCRIBE` per table — on every invocation.  The function
has no cache parameter: its output depends only on the connection oracle.
`dbName` stands for `DB_CONFIG["db"]` (environment configuration). -/
def server_get_schema (dbName : String) (conn : MySQLConn) :
    Except String JVal × List DBEvent :=
  match conn.connectOk with
  | .error e => (.error e, [])
  | .ok _ =>
    match conn.cursorOk with
    | .error e => (.error e, [.connect, .close])
    | .ok _ =>
      match conn.runStmt "SHOW TABLES" with
      | .error e => (.error e, [.connect, .exec "SHOW TABLES", .close])
      | .ok tables =>
        match table_names_of tables with
        | .error e => (.error e, [.connect, .exec "SHOW TABLES", .close])
        | .ok names =>
          match describe_tables conn names with
          | (.error e, evs) => (.error e, [.connect, .exec "SHOW TABLES"] ++ evs ++ [.close])
          | (.ok schemaList, evs) =>
            (.ok (.obj [("database", .str dbName), ("tables", .obj schemaList)]),
             [.connect, .exec "SHOW TABLES"] ++ evs ++ [.close])

/-! test.py, lines 209-218: `NLtoSQLConverter._clean_sql`. -/

/-- The backtick character. -/
def btick : Char := Char.ofNat 96

/-- Does the list start with a ```` ```sql ```` fence marker
(case-insensitive on the `sql` part)? -/
def fence6 : List Char → Bool
  | c1 :: c2 :: c3 :: c4 :: c5 :: c6 :: _ =>
    c1 == btick && c2 == btick && c3 == btick &&
      c4.toLower == 's' && c5.toLower == 'q' && c6.toLower == 'l'
  | _ => false

/-- Does the list start with a plain ```` ``` ```` fence marker? -/
def fence3 : List Char → Bool
  | c1 :: c2 :: c3 :: _ => c1 == btick && c2 == btick && c3 == btick
  | _ => false

/-- Left-to-right scan of the regex substitution, with a skip counter for
the remaining characters of a matched marker. -/
def stripFenceGo : Nat → List Char → List Char
  | _, [] => []
  | skip, c :: cs =>
    match skip with
    | n + 1 => stripFenceGo n cs
    | 0 =>
      if fence6 (c :: cs) then stripFenceGo 5 cs
      else if fence3 (c :: cs) then stripFenceGo 2 cs
      else c :: stripFenceGo 0 cs

/-- `re.sub(r'```sql|```', '', sql, flags=re.IGNORECASE)`: scan left to
right, removing each occurrence of three backticks, preferring the longer
alternative with a case-insensitive `sql` right after. -/
def stripFenceMarkers (l : List Char) : List Char := stripFenceGo 0 l

/-- The quote characters of `re.sub(r'^["\x27]+|["\x27]+$', '', ...)`. -/
def isQuote (c : Char) : Bool := c == '"' || c == Char.ofNat 39

/-- Remove the leading and the trailing run of quote characters. -/
def stripEdgeQuotes (l : List Char) : List Char :=
  ((l.dropWhile isQuote).reverse.dropWhile isQuote).reverse

/-- `sql.endswith(';')` on a character list. -/
def endsSemi (l : List Char) : Bool :=
  match l.getLast? with
  | some c => c == ';'
  | none => false

/-- test.py `_clean_sql`: drop code-fence markers, strip the string, drop
edge quotes, append a semicolon when missing, and strip again. -/
def clean_sql (sql : String) : String :=
  let s1 := stripFenceMarkers sql.data
  let s2 := stripEdgeQuotes (pyStripL s1)
  let s3 := if endsSemi s2 then s2 else s2 ++ [';']
  String.mk (pyStripL s3)

example : clean_sql "```sql\nSELECT 1\n```" = "SELECT 1;" := by rfl
example : clean_sql "\"select * from t;\"" = "select * from t;" := by rfl
example : clean_sql "" = ";" := by rfl

/-! test.py, lines 187-207: `NLtoSQLConverter._parse_response`.
`json.loads` is an oracle `jparse`; `.error ()` is `JSONDecodeError`. -/

/-- The second half of `_parse_response`: the empty-SQL check on the
(already cleaned) result dictionary. -/
def empty_sql_check (fields : List (String × JVal)) : Except String JVal :=
  match (List.lookup "sql" fields).getD (.str "") with
  | .str s =>
    if pyStrip s == "" || pyStrip s == ";" then
      .ok (.obj (jSet fields "error"
        ((List.lookup "error" fields).getD (.str "Generated SQL is empty"))))
    else .ok (.obj fields)
  | _ => .error "AttributeError: object has no attribute strip"

/-- test.py `_parse_response`: parse the model response as JSON; on
`JSONDecodeError` return the fixed error dictionary; otherwise clean the
`sql` entry and apply the empty-SQL default.  `.error` models exceptions
other than `JSONDecodeError`, which escape to `generate_sql`. -/
def parse_response (jparse : String → Except Unit JVal) (response : String) :
    Except String JVal :=
  match jparse response with
  | .error _ =>
    .ok (.obj [("error", .str "Invalid JSON response"), ("raw_response", .str response),
               ("sql", .str ""), ("confidence", .num 0)])
  | .ok result =>
    match result with
    | .obj fields =>
      match List.lookup "sql" fields with
      | some (.str s) => empty_sql_check (jSet fields "sql" (.str (clean_sql s)))
      | some _ => .error "TypeError: expected string or bytes-like object"
      | none => empty_sql_check fields
    | _ => .error "TypeError: unsupported response value"

/-! test.py, lines 19-30: `extract_resource_content`. -/

/-- The `(resource_contents, _)` tuple handed to `extract_resource_content`:
a tag string and the `.text` payloads of the text resource contents. -/
abbrev ResourceContents := String × List String

/-- test.py `extract_resource_content`: return the parsed JSON body of the
first text content, or an error dictionary. -/
def extract_resource_content (jparse : String → Except Unit JVal)
    (resource_contents : ResourceContents) : JVal :=
  match resource_contents with
  | ("contents", text :: _) =>
    match jparse text with
    | .ok v => v
    | .error _ => .obj [("error", .str "Invalid JSON content"), ("raw", .str text)]
  | _ => .obj [("error", .str "No content found")]

/-! test.py, lines 39-116: `NLtoSQLConverter`.  The converter state is its
`schema_cache` dictionary; the environment bundles the MCP resource read
(`fetch`, `.error` = the awaited call raised), the LLM invocation (`llm`,
`.error` = the API call raised) and the `json.loads` oracle. -/

abbrev SchemaCache := List (String × JVal)

structure ClientEnv where
  fetch : String → Except String ResourceContents
  llm : String → Except String String
  jparse : String → Except Unit JVal

/-- test.py `get_schema`: return the cached schema when present, otherwise
read the resource, cache whatever `extract_resource_content` produced, and
return it.  The final component counts `read_resource` calls (database
I/O); a raised fetch propagates and leaves the cache untouched. -/
def get_schema (env : ClientEnv) (schema_cache : SchemaCache) (db_identifier : String) :
    Except String JVal × SchemaCache × Nat :=
  match List.lookup db_identifier schema_cache with
  | some v => (.ok v, schema_cache, 0)
  | none =>
    match env.fetch db_identifier with
    | .error e => (.error e, schema_cache, 1)
    | .ok rc =>
      let schema_data := extract_resource_content env.jparse rc
      (.ok schema_data, (db_identifier, schema_data) :: schema_cache, 1)

/-! test.py, lines 118-150: `_format_schema`. -/

/-- Format one column line with its constraint annotations
(test.py lines 131-147).  Dynamic accesses that would raise in Python
are `.error`. -/
def format_column (col : JVal) : Except String String :=
  match col with
  | .obj fields =>
    match List.lookup "name" fields, List.lookup "type" fields with
    | some nm, some ty =>
      let base := "  " ++ pyStr nm ++ ": " ++ pyStr ty
      let pk : Bool := match List.lookup "key" fields with
        | some (.str k) => k == "PRI"
        | _ => false
      let notNull : Bool := match List.lookup "null" fields with
        | some (.str n) => n == "NO"
        | _ => false
      let dflt : Option JVal := match List.lookup "default" fields with
        | some .null => none
        | some v => some v
        | none => none
      let extraV : Option JVal := match List.lookup "extra" fields with
        | some v => if pyTruthy v then some v else none
        | none => none
      let constraints : List JVal :=
        (if pk then [.str "PRIMARY KEY"] else []) ++
        (if notNull then [.str "NOT NULL"] else []) ++
        (match dflt with
         | some v => [.str ("DEFAULT " ++ pyStr v)]
         | none => []) ++
        (match extraV with
         | some v => [v]
         | none => [])
      match constraints.mapM (fun v => match v with
        | JVal.str s => Except.ok s
        | _ => Except.error "TypeError: sequence item expected str instance") with
      | .error e => .error e
      | .ok cs =>
        if cs.isEmpty then .ok base
        else .ok (base ++ " [" ++ String.intercalate ", " cs ++ "]")
    | _, _ => .error "KeyError"
  | _ => .error "TypeError: string indices must be integers"

/-- Iterate the columns of one table (`for col in columns`). -/
def format_columns (columns : JVal) : Except String String :=
  match columns with
  | .arr cols =>
    let rec go : List JVal → Except String String
      | [] => .ok ""
      | c :: cs => do
        let line ← format_column c
        let rest ← go cs
        .ok (line ++ "\n" ++ rest)
    go cols
  | _ => .error "TypeError: object is not iterable"

/-- Iterate the tables mapping (`for table_name, columns in tables.items()`). -/
def format_tables : List (String × JVal) → Except String String
  | [] => .ok ""
  | (tname, columns) :: rest => do
    let colsStr ← format_columns columns
    let restStr ← format_tables rest
    .ok ("Table: " ++ tname ++ "\n" ++ colsStr ++ "\n" ++ restStr)

/-- test.py `_format_schema`: render the schema dictionary as text; a
malformed top level yields the `Invalid schema format` text, other shape
errors raise. -/
def format_schema (schema_data : JVal) : Except String String :=
  match schema_data with
  | .obj fields =>
    if (List.lookup "tables" fields).isNone then
      .ok ("Invalid schema format: " ++ jdump schema_data)
    else
      let db_name := (List.lookup "database" fields).getD (.str "unknown_database")
      match (List.lookup "tables" fields).getD (.obj []) with
      | .obj tfields =>
        match format_tables tfields with
        | .error e => .error e
        | .ok body => .ok (pyStrip ("Database: " ++ pyStr db_name ++ "\n\n" ++ body))
      | _ => .error "AttributeError: object has no attribute items"
  | _ => .ok ("Invalid schema format: " ++ jdump schema_data)

/-! test.py, lines 152-185: `_build_prompt`. -/

/-- test.py `_build_prompt`: the LLM prompt template with the rendered
schema and the user question spliced in. -/
def build_prompt (nl_query : String) (schema : String) : String :=
  "\n        ## 任务\n        将自然语言问题转换为精确的SQL查询语句。数据库是MySQL。\n        \n        ## 数据库Schema\n        "
  ++ schema ++
  "\n        \n        ## 用户问题\n        \"" ++ nl_query ++
  "\"\n        \n        ## 输出要求\n        1. 只生成SQL语句，不要包含任何解释或额外文本\n        2. 确保SQL语法完全正确\n        3. 使用JSON格式返回结果：\n        \x7b\n            \"sql\": \"生成的SQL语句\",\n            \"confidence\": \"对生成结果的置信度评分(0-100)\",\n            \"tables_used\": [\"查询涉及的表名\"]\n        \x7d\n        \n        ## 关键注意事项\n        - 使用反引号(`)引用表名和列名，而非双引号\n        - 确保所有引号都是闭合的\n        - 如果问题无法转换为SQL，设置\"sql\"为空字符串并添加\"error\"字段说明原因\n        - 特别注意WHERE子句的准确性\n        - 日期函数使用CURDATE()获取当前日期\n        - 仅支持单表查询（不允许使用JOIN）\n        \n        ## 示例\n        用户问题: \"显示最近的10个订单\"\n        正确SQL: SELECT * FROM `orders` ORDER BY `order_date` DESC LIMIT 10;\n        "

/-! test.py, lines 70-116: `generate_sql`. -/

/-- The `except Exception` result dictionary of `generate_sql`. -/
def generation_failed (e : String) : JVal :=
  .obj [("error", .str ("Generation failed: " ++ e)), ("sql", .str ""),
        ("confidence", .num 0)]

/-- `str(schema_data.get('error'))` as interpolated into the f-string. -/
def pyStrOfOpt : Option JVal → String
  | some v => pyStr v
  | none => "None"

/-- test.py `generate_sql`: fetch (and cache) the schema, bail out on an
error-bearing schema, format it, build the prompt, invoke the model and
parse its response; every raised exception is caught and converted into
the `Generation failed` dictionary.  The second component is the converter
cache after the call. -/
def generate_sql (env : ClientEnv) (schema_cache : SchemaCache)
    (nl_query : String) (db_identifier : String) : JVal × SchemaCache :=
  match get_schema env schema_cache db_identifier with
  | (.error e, cache1, _) => (generation_failed e, cache1)
  | (.ok schema_data, cache1, _) =>
    match pyInJVal "error" schema_data with
    | .error e => (generation_failed e, cache1)
    | .ok true =>
      match dictGetAttr schema_data "error" with
      | .error e => (generation_failed e, cache1)
      | .ok v =>
        (.obj [("error", .str ("Schema error: " ++ pyStrOfOpt v)),
               ("sql", .str ""), ("confidence", .num 0)], cache1)
    | .ok false =>
      match format_schema schema_data with
      | .error e => (generation_failed e, cache1)
      | .ok schema_str =>
        match env.llm (build_prompt nl_query schema_str) with
        | .error e => (generation_failed e, cache1)
        | .ok content =>
          match parse_response env.jparse content with
          | .error e => (generation_failed e, cache1)
          | .ok result => (result, cache1)

/-! The Pagination Cache.  The repository sources contain no pagination
implementation; the definitions below are modelled from the spec. -/

/-- Modelled from the spec: the per-session PageCursor of §4.5 — the
repository sources have no Pagination Cache implementation. -/
structure PageCursor where
  lastResults : List Row
  pageSize : Nat
  currentPage : Nat

/-- Modelled from the spec: `storeResult` replaces `lastResults` wholesale
and resets `currentPage` to 0. -/
def storeResult (rows : List Row) (pc : PageCursor) : PageCursor :=
  { lastResults := rows, pageSize := pc.pageSize, currentPage := 0 }

/-- Modelled from the spec: `nextPage` returns the slice
`[currentPage*pageSize, currentPage*pageSize+pageSize)` and advances
`currentPage` only when the slice is non-empty; an empty slice reports
EndOfPages (`none`) without advancing. -/
def nextPage (pc : PageCursor) : Option (List Row) × PageCursor :=
  let slice := (pc.lastResults.drop (pc.currentPage * pc.pageSize)).take pc.pageSize
  if slice.isEmpty then (none, pc)
  else (some slice, { pc with currentPage := pc.currentPage + 1 })

/-- Call `nextPage` a given number of times, collecting the returned
slices (stopping early at EndOfPages). -/
def runPages : Nat → PageCursor → List (List Row) × PageCursor
  | 0, pc => ([], pc)
  | Nat.succ k, pc =>
    match nextPage pc with
    | (some slice, pc1) =>
      let r := runPages k pc1
      (slice :: r.1, r.2)
    | (none, pc1) => ([], pc1)

/-! Concrete oracle instances used by the witness theorems below. -/

/-- A connection whose queried statement raises with an empty message. -/
def conn_empty_error : MySQLConn :=
  { connectOk := .ok (), cursorOk := .ok (),
    runStmt := fun s => if s == "SELECT 1" then .error "" else .ok [],
    commitOk := .ok () }

/-- A connection on which the queried statement fails with a message. -/
def conn_exec_fails : MySQLConn :=
  { connectOk := .ok (), cursorOk := .ok (),
    runStmt := fun s => if s == "SELECT * FROM t" then .error "Table t does not exist" else .ok [],
    commitOk := .ok () }

/-- A connection on which everything succeeds, with one `users` table. -/
def conn_one_table : MySQLConn :=
  { connectOk := .ok (), cursorOk := .ok (),
    runStmt := fun s =>
      if s == "SHOW TABLES" then .ok [[("Tables_in_college", .str "users")]]
      else if s == "DESCRIBE `users`" then
        .ok [[("Field", .str "id"), ("Type", .str "int"), ("Null", .str "NO"),
              ("Key", .str "PRI"), ("Default", .null), ("Extra", .str "")]]
      else .ok [],
    commitOk := .ok () }

/-- A well-formed schema dictionary as served by the schema resource. -/
def schema_json : JVal := .obj [("database", .str "college"), ("tables", .obj [])]

/-- A client environment whose resource read raises. -/
def env_fetch_fails : ClientEnv :=
  { fetch := fun _ => .error "connection refused",
    llm := fun _ => .ok "",
    jparse := fun _ => .error () }

/-- A client environment with a good schema whose LLM call raises. -/
def env_llm_fails : ClientEnv :=
  { fetch := fun _ => .ok ("contents", ["schemajson"]),
    llm := fun _ => .error "API timeout",
    jparse := fun s => if s == "schemajson" then .ok schema_json else .error () }

/-- A client environment whose LLM answer is not valid JSON. -/
def env_bad_json : ClientEnv :=
  { fetch := fun _ => .ok ("contents", ["schemajson"]),
    llm := fun _ => .ok "not json",
    jparse := fun s => if s == "schemajson" then .ok schema_json else .error () }

/-- A client environment whose resource read yields undecodable content. -/
def env_bad_content : ClientEnv :=
  { fetch := fun _ => .ok ("contents", ["not json"]),
    llm := fun _ => .ok "",
    jparse := fun _ => .error () }

/-- A `json.loads` oracle whose only valid document is a response with an
empty `sql` entry. -/
def jparse_empty_sql : String → Except Unit JVal :=
  fun s => if s == "resp" then .ok (.obj [("sql", .str "")]) else .error ()

/-- Three rows used by the pagination witness. -/
def rows3 : List Row :=
  [[("id", JVal.num 1)], [("id", JVal.num 2)], [("id", JVal.num 3)]]

/-! Theorems. -/

theorem occursInside_iff (n h : List Char) : occursInside n h = true ↔ n <:+: h := by
  induction h with
  | nil => simp [occursInside, List.isEmpty_iff]
  | cons c cs ih =>
    simp [occursInside, List.isPrefixOf_iff_prefix, ih, List.infix_cons_iff]

theorem occursInside_eq_false (n h : List Char) :
    occursInside n h = false ↔ ¬ n <:+: h := by
  rw [← occursInside_iff n h]
  simp

/-- C1: the Safety Validator accepts a SQL string exactly when its trimmed
lowercase form starts with `select` and its lowercase form contains no
denylisted keyword as a substring; every string violating either condition
is classified unsafe. -/
theorem c1_safety_validator :
    (∀ sql : String, is_safe_query sql = true ↔
        ("select".data <+: (pyStrip (pyLower sql)).data ∧
         ∀ k ∈ denylist_keywords, ¬ (k.data <:+: (pyLower sql).data))) ∧
    (∀ sql : String, ¬ ("select".data <+: (pyStrip (pyLower sql)).data) →
        is_safe_query sql = false) ∧
    (∀ sql k : String, k ∈ denylist_keywords →
        k.data <:+: (pyLower sql).data → is_safe_query sql = false) := by
  have main : ∀ sql : String, is_safe_query sql = true ↔
      ("select".data <+: (pyStrip (pyLower sql)).data ∧
       ∀ k ∈ denylist_keywords, ¬ (k.data <:+: (pyLower sql).data)) := by
    intro sql
    simp only [is_safe_query, pyStartswith, pyIn, Bool.and_eq_true,
      Bool.not_eq_true', List.any_eq_false, List.isPrefixOf_iff_prefix,
      occursInside_eq_false, occursInside_iff]
  refine ⟨main, fun sql h => ?_, fun sql k hk hin => ?_⟩
  · rcases h' : is_safe_query sql with _ | _
    · rfl
    · exact absurd ((main sql).mp h').1 h
  · rcases h' : is_safe_query sql with _ | _
    · rfl
    · exact absurd hin (((main sql).mp h').2 k hk)

/-- Witness for C1: a non-SELECT statement and a SELECT statement whose
text contains the substring `create` are both classified unsafe. -/
theorem c1_safety_validator_witness :
    is_safe_query "DROP TABLE users" = false ∧
    is_safe_query "select id from created_at_log" = false :=
  ⟨c1_safety_validator.2.1 "DROP TABLE users" (by decide),
   c1_safety_validator.2.2 "select id from created_at_log" "create"
     (by decide) (by decide)⟩

/-- C2: a SQL string failing the Safety Validator makes `query_data`
return `success=false` with the explanatory rejection message, and the
database trace is empty — no connection is acquired and no statement is
executed. -/
theorem c2_unsafe_query_no_db_access (conn : MySQLConn) (sql : String)
    (h : is_safe_query sql = false) :
    query_data conn sql =
      (.ok { success := false, results := none, rowCount := none,
             error := some blocked_message }, []) := by
  simp [query_data, h]

/-- Witness for C2: `DELETE FROM users` is rejected without any database
interaction (on an arbitrary concrete connection oracle). -/
theorem c2_unsafe_query_no_db_access_witness :
    is_safe_query "DELETE FROM users" = false ∧
    query_data conn_one_table "DELETE FROM users" =
      (.ok { success := false, results := none, rowCount := none,
             error := some blocked_message }, []) :=
  ⟨by rfl, c2_unsafe_query_no_db_access conn_one_table "DELETE FROM users" (by rfl)⟩

/-- C3 counterexample: when the executed statement raises an exception
whose message is the empty string, `query_data` returns an unsuccessful
result whose `error` field is the empty string — not a non-empty error as
the claim states. -/
theorem c3_empty_error_counterexample :
    (query_data conn_empty_error "SELECT 1").1 =
      .ok { success := false, results := none, rowCount := none, error := some "" } := by
  rfl

/-- C3 (amended): every result dictionary returned by `query_data`
satisfies: on success, `results` is present, `rowCount` equals its length
and `error` is absent; on failure, `results` and `rowCount` are absent and
`error` is present (its text is the exception's message, which may be
empty). -/
theorem c3_result_invariant (conn : MySQLConn) (sql : String)
    (r : QueryResult) (tr : List DBEvent)
    (h : query_data conn sql = (.ok r, tr)) :
    (r.success = true →
      ∃ rows, r.results = some rows ∧ r.rowCount = some rows.length ∧ r.error = none) ∧
    (r.success = false →
      r.results = none ∧ r.rowCount = none ∧ ∃ e, r.error = some e) := by
  unfold query_data at h
  split at h
  · repeat' split at h
    all_goals simp only [Prod.mk.injEq] at h
    all_goals try exact Except.noConfusion h.1
    all_goals obtain ⟨h1, -⟩ := h
    all_goals obtain rfl := (Except.ok.injEq _ _).mp h1
    all_goals constructor <;> intro hs <;> simp_all
  · simp only [Prod.mk.injEq] at h
    obtain ⟨h1, -⟩ := h
    obtain rfl := (Except.ok.injEq _ _).mp h1
    constructor <;> intro hs <;> simp_all

/-- Witness for C3: the invariant instantiated on a concrete failing
execution. -/
theorem c3_result_invariant_witness :
    ((query_data conn_exec_fails "SELECT * FROM t").1 =
      .ok { success := false, results := none, rowCount := none,
            error := some "Table t does not exist" }) ∧
    ({ success := false, results := none, rowCount := none,
       error := some "Table t does not exist" : QueryResult }.success = false →
      ({ success := false, results := none, rowCount := none,
         error := some "Table t does not exist" : QueryResult }.results = none ∧
       { success := false, results := none, rowCount := none,
         error := some "Table t does not exist" : QueryResult }.rowCount = none ∧
       ∃ e, ({ success := false, results := none, rowCount := none,
               error := some "Table t does not exist" : QueryResult }.error = some e))) :=
  ⟨by rfl,
   (c3_result_invariant conn_exec_fails "SELECT * FROM t" _ _ (by rfl)).2⟩

/-- C4: for a SAFE statement whose execution raises, `query_data` rolls
the transaction back (the trace records a rollback and no commit) and
returns `success=false` with exactly the exception's message as `error`. -/
theorem c4_rollback_on_exception (conn : MySQLConn) (sql e : String)
    (r1 r2 : List Row)
    (hsafe : is_safe_query sql = true)
    (hconn : conn.connectOk = .ok ())
    (hcur : conn.cursorOk = .ok ())
    (hset : conn.runStmt "SET TRANSACTION READ ONLY" = .ok r1)
    (hstart : conn.runStmt "START TRANSACTION" = .ok r2)
    (hexec : conn.runStmt sql = .error e) :
    query_data conn sql =
      (.ok { success := false, results := none, rowCount := none, error := some e },
       [.connect, .exec "SET TRANSACTION READ ONLY", .exec "START TRANSACTION",
        .exec sql, .rollback, .close]) ∧
    DBEvent.rollback ∈ (query_data conn sql).2 ∧
    DBEvent.commit ∉ (query_data conn sql).2 := by
  have hq : query_data conn sql =
      (.ok { success := false, results := none, rowCount := none, error := some e },
       [.connect, .exec "SET TRANSACTION READ ONLY", .exec "START TRANSACTION",
        .exec sql, .rollback, .close]) := by
    simp [query_data, hsafe, hconn, hcur, hset, hstart, hexec]
  refine ⟨hq, ?_, ?_⟩ <;> rw [hq] <;> simp

/-- Witness for C4: a concrete safe query whose execution fails is rolled
back and reported with the exception's message. -/
theorem c4_rollback_on_exception_witness :
    query_data conn_exec_fails "SELECT * FROM t" =
      (.ok { success := false, results := none, rowCount := none,
             error := some "Table t does not exist" },
       [.connect, .exec "SET TRANSACTION READ ONLY", .exec "START TRANSACTION",
        .exec "SELECT * FROM t", .rollback, .close]) ∧
    DBEvent.rollback ∈ (query_data conn_exec_fails "SELECT * FROM t").2 ∧
    DBEvent.commit ∉ (query_data conn_exec_fails "SELECT * FROM t").2 :=
  c4_rollback_on_exception conn_exec_fails "SELECT * FROM t" "Table t does not exist"
    [] [] (by rfl) (by rfl) (by rfl) (by rfl) (by rfl) (by rfl)

/-- C6: when a `get_schema` call returns a schema, the immediately
following call for the same identifier — under any environment, even one
whose resource read would now fail or answer differently — returns the
structurally equal value, leaves the cache unchanged and performs no
resource read at all. -/
theorem c6_schema_cache_idempotent (env1 env2 : ClientEnv) (cache : SchemaCache)
    (db_identifier : String) (v : JVal) (cache1 : SchemaCache) (n : Nat)
    (h : get_schema env1 cache db_identifier = (.ok v, cache1, n)) :
    get_schema env2 cache1 db_identifier = (.ok v, cache1, 0) := by
  unfold get_schema at h ⊢
  cases hl : List.lookup db_identifier cache with
  | some w =>
    rw [hl] at h
    simp only [Prod.mk.injEq] at h
    obtain ⟨h1, h2, -⟩ := h
    obtain rfl := (Except.ok.injEq _ _).mp h1
    subst h2
    rw [hl]
  | none =>
    rw [hl] at h
    cases hf : env1.fetch db_identifier with
    | error e => rw [hf] at h; exact Except.noConfusion ((Prod.mk.injEq _ _ _ _).mp h).1
    | ok rc =>
      rw [hf] at h
      simp only [Prod.mk.injEq] at h
      obtain ⟨h1, h2, -⟩ := h
      obtain rfl := (Except.ok.injEq _ _).mp h1
      subst h2
      simp [List.lookup]

/-- Witness for C6: after a first call caches the schema, a second call —
here under an environment whose fetch would raise — returns the cached
value with zero resource reads. -/
theorem c6_schema_cache_idempotent_witness :
    get_schema env_fetch_fails [("mysql://schema", schema_json)] "mysql://schema" =
      (.ok schema_json, [("mysql://schema", schema_json)], 0) :=
  c6_schema_cache_idempotent env_llm_fails env_fetch_fails [] "mysql://schema"
    schema_json [("mysql://schema", schema_json)] 1 (by rfl)

/-- C7 counterexample: a failed introspection that surfaces as resource
content (here: a body that is not valid JSON, which
`extract_resource_content` turns into its error dictionary) is returned by
`get_schema` as an ordinary value — not a distinct failure condition — and
it DOES populate the cache: afterwards the cache holds an entry for the
identifier. -/
theorem c7_error_content_cached_counterexample :
    (get_schema env_bad_content [] "mysql://schema").1 =
      .ok (.obj [("error", .str "Invalid JSON content"), ("raw", .str "not json")]) ∧
    List.lookup "mysql://schema" (get_schema env_bad_content [] "mysql://schema").2.1 =
      some (.obj [("error", .str "Invalid JSON content"), ("raw", .str "not json")]) := by
  exact ⟨rfl, rfl⟩

/-- C7 (amended): a schema-fetch failure raised as an exception propagates
out of `get_schema` and leaves the cache untouched (no entry for the
identifier); but a failure surfaced as resource content is returned as an
ordinary (error-bearing) value and is cached, so the cache then does hold
an entry for that identifier. -/
theorem c7_schema_failure_cache :
    (∀ (env : ClientEnv) (cache : SchemaCache) (db_identifier e : String),
        List.lookup db_identifier cache = none →
        env.fetch db_identifier = .error e →
        get_schema env cache db_identifier = (.error e, cache, 1)) ∧
    (∀ (env : ClientEnv) (cache : SchemaCache) (db_identifier : String)
        (rc : ResourceContents),
        List.lookup db_identifier cache = none →
        env.fetch db_identifier = .ok rc →
        get_schema env cache db_identifier =
          (.ok (extract_resource_content env.jparse rc),
           (db_identifier, extract_resource_content env.jparse rc) :: cache, 1)) := by
  constructor
  · intro env cache db_identifier e h1 h2
    simp [get_schema, h1, h2]
  · intro env cache db_identifier rc h1 h2
    simp [get_schema, h1, h2]

/-- Witness for C7: a raising fetch leaves the empty cache empty, while an
error-content fetch caches the error dictionary. -/
theorem c7_schema_failure_cache_witness :
    get_schema env_fetch_fails [] "mysql://schema" =
      (.error "connection refused", [], 1) ∧
    get_schema env_bad_content [] "mysql://schema" =
      (.ok (extract_resource_content env_bad_content.jparse ("contents", ["not json"])),
       ("mysql://schema",
        extract_resource_content env_bad_content.jparse ("contents", ["not json"])) :: [], 1) :=
  ⟨c7_schema_failure_cache.1 env_fetch_fails [] "mysql://schema" "connection refused"
     (by rfl) (by rfl),
   c7_schema_failure_cache.2 env_bad_content [] "mysql://schema" ("contents", ["not json"])
     (by rfl) (by rfl)⟩

/-- C5: the translator converts every environment failure into a result
value instead of raising: a raised schema fetch and a raised model call
each yield the `Generation failed` dictionary (error set, `sql = ""`), and
a model response that is not valid JSON yields the dictionary with
`error = "Invalid JSON response"` and `sql = ""`. -/
theorem c5_translator_error_capture :
    (∀ (env : ClientEnv) (cache : SchemaCache) (nl_query db_identifier e : String),
        List.lookup db_identifier cache = none →
        env.fetch db_identifier = .error e →
        (generate_sql env cache nl_query db_identifier).1 = generation_failed e) ∧
    (∀ (env : ClientEnv) (cache : SchemaCache) (nl_query db_identifier : String)
        (schema_data : JVal) (cache1 : SchemaCache) (n : Nat) (schema_str e : String),
        get_schema env cache db_identifier = (.ok schema_data, cache1, n) →
        pyInJVal "error" schema_data = .ok false →
        format_schema schema_data = .ok schema_str →
        env.llm (build_prompt nl_query schema_str) = .error e →
        generate_sql env cache nl_query db_identifier = (generation_failed e, cache1)) ∧
    (∀ (env : ClientEnv) (cache : SchemaCache) (nl_query db_identifier : String)
        (schema_data : JVal) (cache1 : SchemaCache) (n : Nat) (schema_str content : String),
        get_schema env cache db_identifier = (.ok schema_data, cache1, n) →
        pyInJVal "error" schema_data = .ok false →
        format_schema schema_data = .ok schema_str →
        env.llm (build_prompt nl_query schema_str) = .ok content →
        env.jparse content = .error () →
        (generate_sql env cache nl_query db_identifier).1 =
          .obj [("error", .str "Invalid JSON response"), ("raw_response", .str content),
                ("sql", .str ""), ("confidence", .num 0)]) := by
  refine ⟨?_, ?_, ?_⟩
  · intro env cache nl_query db_identifier e h1 h2
    simp [generate_sql, get_schema, h1, h2, generation_failed]
  · intro env cache nl_query db_identifier schema_data cache1 n schema_str e
      hget hin hfmt hllm
    simp [generate_sql, hget, hin, hfmt, hllm]
  · intro env cache nl_query db_identifier schema_data cache1 n schema_str content
      hget hin hfmt hllm hjp
    simp [generate_sql, hget, hin, hfmt, hllm, parse_response, hjp]

/-- Witness for C5: the three failure conversions on concrete
environments. -/
theorem c5_translator_error_capture_witness :
    ((generate_sql env_fetch_fails [] "list users" "mysql://schema").1 =
      generation_failed "connection refused") ∧
    (generate_sql env_llm_fails [] "list users" "mysql://schema" =
      (generation_failed "API timeout", [("mysql://schema", schema_json)])) ∧
    ((generate_sql env_bad_json [] "list users" "mysql://schema").1 =
      .obj [("error", .str "Invalid JSON response"), ("raw_response", .str "not json"),
            ("sql", .str ""), ("confidence", .num 0)]) :=
  ⟨c5_translator_error_capture.1 env_fetch_fails [] "list users" "mysql://schema"
     "connection refused" (by rfl) (by rfl),
   c5_translator_error_capture.2.1 env_llm_fails [] "list users" "mysql://schema"
     schema_json [("mysql://schema", schema_json)] 1 "Database: college" "API timeout"
     (by rfl) (by rfl) (by rfl) (by rfl),
   c5_translator_error_capture.2.2 env_bad_json [] "list users" "mysql://schema"
     schema_json [("mysql://schema", schema_json)] 1 "Database: college" "not json"
     (by rfl) (by rfl) (by rfl) (by rfl) (by rfl)⟩

theorem dropWhile_append_last (p : Char → Bool) (l : List Char) (c : Char)
    (h : p c = false) :
    (l ++ [c]).dropWhile p = l.dropWhile p ++ [c] := by
  induction l with
  | nil => simp [List.dropWhile_cons_of_neg, h]
  | cons a l ih =>
    by_cases ha : p a
    · simpa [List.dropWhile_cons_of_pos ha] using ih
    · simp [List.dropWhile_cons_of_neg ha]

theorem pyStripL_append_semi (t : List Char) :
    pyStripL (t ++ [';']) = t.dropWhile isSpaceChar ++ [';'] := by
  have hsemi : isSpaceChar ';' = false := by decide
  unfold pyStripL
  rw [dropWhile_append_last _ _ _ hsemi, List.reverse_append]
  simp only [List.reverse_cons, List.reverse_nil, List.nil_append, List.singleton_append]
  rw [List.dropWhile_cons_of_neg (by simp [hsemi])]
  simp

theorem fence6_false_head (a : Char) (xs : List Char) (h : (a == btick) = false) :
    fence6 (a :: xs) = false := by
  rcases xs with _ | ⟨c2, xs⟩
  · rfl
  rcases xs with _ | ⟨c3, xs⟩
  · rfl
  rcases xs with _ | ⟨c4, xs⟩
  · rfl
  rcases xs with _ | ⟨c5, xs⟩
  · rfl
  rcases xs with _ | ⟨c6, xs⟩
  · rfl
  simp [fence6, h]

theorem fence3_false_head (a : Char) (xs : List Char) (h : (a == btick) = false) :
    fence3 (a :: xs) = false := by
  rcases xs with _ | ⟨c2, xs⟩
  · rfl
  rcases xs with _ | ⟨c3, xs⟩
  · rfl
  simp [fence3, h]

theorem stripFenceGo_no_btick (l rest : List Char)
    (h : ∀ c ∈ l, (c == btick) = false) :
    stripFenceGo 0 (l ++ rest) = l ++ stripFenceGo 0 rest := by
  induction l with
  | nil => rfl
  | cons a l ih =>
    have ha : (a == btick) = false := h a (List.mem_cons_self a l)
    have hl : ∀ c ∈ l, (c == btick) = false := fun c hc => h c (List.mem_cons_of_mem a hc)
    simp only [List.cons_append, stripFenceGo, List.append_eq]
    rw [fence6_false_head a (l ++ rest) ha, fence3_false_head a (l ++ rest) ha]
    simp [ih hl]

theorem jSet_lookup_same (fields : List (String × JVal)) (k : String) (v : JVal) :
    List.lookup k (jSet fields k v) = some v := by
  induction fields with
  | nil => simp [jSet, List.lookup]
  | cons kv rest ih =>
    obtain ⟨k0, v0⟩ := kv
    by_cases hk : k0 = k
    · subst hk
      simp [jSet, List.lookup]
    · have hk1 : (k0 == k) = false := by simpa using hk
      have hk2 : (k == k0) = false := by simpa using (Ne.symm hk)
      simp [jSet, hk1, List.lookup, hk2, ih]

theorem stripFenceGo_sql_marker (l : List Char) :
    stripFenceGo 0 (btick :: btick :: btick :: 's' :: 'q' :: 'l' :: l) =
      stripFenceGo 0 l := rfl

theorem stripFenceGo_bare_marker :
    stripFenceGo 0 [btick, btick, btick] = [] := rfl

theorem clean_sql_ends_semi (s : String) : pyEndswith (clean_sql s) ";" = true := by
  have key : ∀ l : List Char,
      ∃ t, pyStripL (if endsSemi l then l else l ++ [';']) = t ++ [';'] := by
    intro l
    by_cases hc : endsSemi l
    · rw [if_pos hc]
      unfold endsSemi at hc
      rcases hl : l.getLast? with _ | c
      · rw [hl] at hc; exact Bool.noConfusion hc
      · rw [hl] at hc
        obtain rfl : c = ';' := by simpa using hc
        obtain ⟨t, rfl⟩ := List.getLast?_eq_some_iff.mp hl
        exact ⟨t.dropWhile isSpaceChar, pyStripL_append_semi t⟩
    · rw [if_neg hc, pyStripL_append_semi]
      exact ⟨l.dropWhile isSpaceChar, rfl⟩
  have main : ∀ l : List Char,
      pyEndswith (String.mk (pyStripL (if endsSemi l then l else l ++ [';']))) ";" = true := by
    intro l
    obtain ⟨t, ht⟩ := key l
    rw [ht]
    simp only [pyEndswith, List.isSuffixOf_iff_suffix]
    exact List.suffix_append t [';']
  exact main (stripEdgeQuotes (pyStripL (stripFenceMarkers s.data)))

theorem clean_sql_strips_wrappers (s : String)
    (hchars : ∀ c ∈ s.data,
      (c == btick) = false ∧ isQuote c = false ∧ isSpaceChar c = false)
    (hne : s.data ≠ [])
    (hsemi : endsSemi s.data = false) :
    clean_sql ("```sql\"" ++ s ++ "\"```") = s ++ ";" := by
  obtain ⟨sd⟩ := s
  have hmk : (String.mk sd).data = sd := rfl
  rw [hmk] at hchars hne hsemi
  obtain ⟨a, t, rfl⟩ : ∃ a t, sd = a :: t := by
    rcases sd with _ | ⟨a, t⟩
    · exact absurd rfl hne
    · exact ⟨a, t, rfl⟩
  have ha := hchars a (List.mem_cons_self a t)
  have hfence : stripFenceMarkers ("```sql\"" ++ String.mk (a :: t) ++ "\"```").data
      = '"' :: ((a :: t) ++ ['"']) := by
    have h1 : ("```sql\"" ++ String.mk (a :: t) ++ "\"```").data
        = btick :: btick :: btick :: 's' :: 'q' :: 'l' ::
            (('"' :: ((a :: t) ++ ['"'])) ++ [btick, btick, btick]) := by
      simp [String.data_append]
      rfl
    rw [stripFenceMarkers, h1, stripFenceGo_sql_marker]
    rw [stripFenceGo_no_btick ('"' :: ((a :: t) ++ ['"'])) [btick, btick, btick]
      (by
        intro c hc
        rcases List.mem_cons.mp hc with rfl | hc2
        · decide
        · rcases List.mem_append.mp hc2 with hc3 | hc3
          · exact (hchars c hc3).1
          · obtain rfl : c = '"' := by simpa using hc3
            decide)]
    rw [stripFenceGo_bare_marker, List.append_nil]
  have hstrip1 : pyStripL ('"' :: ((a :: t) ++ ['"'])) = '"' :: ((a :: t) ++ ['"']) := by
    unfold pyStripL
    rw [List.dropWhile_cons_of_neg (by decide)]
    have hrev : ('"' :: ((a :: t) ++ ['"'])).reverse = '"' :: ('"' :: (a :: t)).reverse := by
      rw [← List.cons_append, List.reverse_append]
      simp
    rw [hrev, List.dropWhile_cons_of_neg (by decide)]
    rw [← hrev, List.reverse_reverse]
  have hquotes : stripEdgeQuotes ('"' :: ((a :: t) ++ ['"'])) = a :: t := by
    unfold stripEdgeQuotes
    rw [List.dropWhile_cons_of_pos (by decide)]
    rw [List.cons_append, List.dropWhile_cons_of_neg (by simp [ha.2.1])]
    have hrev : (a :: (t ++ ['"'])).reverse = '"' :: (a :: t).reverse := by
      rw [← List.cons_append, List.reverse_append]
      simp
    rw [hrev, List.dropWhile_cons_of_pos (by decide)]
    rcases hrv : (a :: t).reverse with _ | ⟨b, u⟩
    · exact absurd hrv (by simp)
    · have hb : b ∈ a :: t := by
        rw [← List.mem_reverse, hrv]
        exact List.mem_cons_self b u
      rw [List.dropWhile_cons_of_neg (by simp [(hchars b hb).2.1])]
      rw [← hrv, List.reverse_reverse]
  have hfinal : pyStripL ((a :: t) ++ [';']) = (a :: t) ++ [';'] := by
    rw [pyStripL_append_semi, List.dropWhile_cons_of_neg (by simp [ha.2.2])]
  show String.mk (pyStripL
      (if endsSemi (stripEdgeQuotes (pyStripL
          (stripFenceMarkers ("```sql\"" ++ String.mk (a :: t) ++ "\"```").data)))
       then stripEdgeQuotes (pyStripL
          (stripFenceMarkers ("```sql\"" ++ String.mk (a :: t) ++ "\"```").data))
       else stripEdgeQuotes (pyStripL
          (stripFenceMarkers ("```sql\"" ++ String.mk (a :: t) ++ "\"```").data)) ++ [';']))
    = String.mk (a :: t) ++ ";"
  rw [hfence, hstrip1, hquotes, hsemi]
  show String.mk (pyStripL ((a :: t) ++ [';'])) = String.mk (a :: t) ++ ";"
  rw [hfinal]
  rfl

theorem parse_response_empty_sql_default
    (jp : String → Except Unit JVal) (content : String)
    (fields : List (String × JVal)) (s0 : String)
    (hjp : jp content = .ok (.obj fields))
    (hsql : List.lookup "sql" fields = some (.str s0))
    (hcond : pyStrip (clean_sql s0) = "" ∨ pyStrip (clean_sql s0) = ";") :
    parse_response jp content =
      .ok (.obj (jSet (jSet fields "sql" (.str (clean_sql s0))) "error"
        ((List.lookup "error" (jSet fields "sql" (.str (clean_sql s0)))).getD
          (.str "Generated SQL is empty")))) := by
  unfold parse_response
  rw [hjp]
  simp only [hsql]
  unfold empty_sql_check
  rw [jSet_lookup_same]
  simp only [Option.getD_some]
  have hb : (pyStrip (clean_sql s0) == "" || pyStrip (clean_sql s0) == ";") = true := by
    rcases hcond with h | h <;> simp [h]
  simp only [hb, if_true]

/-- C8: the cleaning step always produces a statement ending in the
semicolon terminator; on a fenced and quoted statement it yields exactly
the inner statement plus the terminator; and when the cleaned SQL is empty
or a bare terminator, `_parse_response` sets the default
`Generated SQL is empty` error (keeping a model-supplied `error`) and
leaves the cleaned `sql` in place. -/
theorem c8_clean_sql_spec :
    (∀ s : String, pyEndswith (clean_sql s) ";" = true) ∧
    (∀ s : String,
      (∀ c ∈ s.data, (c == btick) = false ∧ isQuote c = false ∧ isSpaceChar c = false) →
      s.data ≠ [] → endsSemi s.data = false →
      clean_sql ("```sql\"" ++ s ++ "\"```") = s ++ ";") ∧
    (∀ (jp : String → Except Unit JVal) (content : String)
        (fields : List (String × JVal)) (s0 : String),
      jp content = .ok (.obj fields) →
      List.lookup "sql" fields = some (.str s0) →
      (pyStrip (clean_sql s0) = "" ∨ pyStrip (clean_sql s0) = ";") →
      parse_response jp content =
        .ok (.obj (jSet (jSet fields "sql" (.str (clean_sql s0))) "error"
          ((List.lookup "error" (jSet fields "sql" (.str (clean_sql s0)))).getD
            (.str "Generated SQL is empty"))))) :=
  ⟨clean_sql_ends_semi, clean_sql_strips_wrappers, parse_response_empty_sql_default⟩

/-- Witness for C8: the cleaning and empty-SQL defaults on concrete
inputs. -/
theorem c8_clean_sql_spec_witness :
    pyEndswith (clean_sql "select 1") ";" = true ∧
    clean_sql "```sql\"SELECT_1\"```" = "SELECT_1" ++ ";" ∧
    parse_response jparse_empty_sql "resp" =
      .ok (.obj (jSet (jSet [("sql", .str "")] "sql" (.str (clean_sql ""))) "error"
        ((List.lookup "error" (jSet [("sql", .str "")] "sql" (.str (clean_sql "")))).getD
          (.str "Generated SQL is empty")))) :=
  ⟨c8_clean_sql_spec.1 "select 1",
   c8_clean_sql_spec.2.1 "SELECT_1" (by decide) (by decide) (by decide),
   c8_clean_sql_spec.2.2 jparse_empty_sql "resp" [("sql", .str "")] ""
     (by rfl) (by rfl) (Or.inr (by rfl))⟩

theorem take_add_split {α : Type} (m n : Nat) (l : List α) :
    l.take (m + n) = l.take m ++ (l.drop m).take n := by
  induction m generalizing l with
  | zero => simp
  | succ m ih =>
    rcases l with _ | ⟨a, l⟩
    · simp
    · simp only [List.take_succ_cons, List.drop_succ_cons, List.cons_append]
      rw [Nat.succ_add, List.take_succ_cons, ih]

theorem runPages_flatten (rows : List Row) (P : Nat) (hP : 0 < P) :
    ∀ (k c : Nat),
      ((runPages k { lastResults := rows, pageSize := P, currentPage := c }).1).flatten
        = (rows.drop (c * P)).take (k * P) := by
  intro k
  induction k with
  | zero => intro c; simp [runPages]
  | succ k ih =>
    intro c
    simp only [runPages, nextPage]
    by_cases hs : ((rows.drop (c * P)).take P).isEmpty
    · rw [if_pos hs]
      have hdrop : rows.drop (c * P) = [] := by
        rcases hd : rows.drop (c * P) with _ | ⟨x, xs⟩
        · rfl
        · rw [hd] at hs
          rw [List.isEmpty_iff, List.take_eq_nil_iff] at hs
          rcases hs with h0 | hnil
          · omega
          · exact List.noConfusion hnil
      simp [hdrop]
    · rw [if_neg hs]
      simp only [List.flatten_cons]
      rw [ih (c + 1)]
      have h1 : (k + 1) * P = P + k * P := by ring
      have h2 : (c + 1) * P = c * P + P := by ring
      rw [h1, h2, take_add_split, ← List.drop_drop]

theorem runPages_state (rows : List Row) (P : Nat) (hP : 0 < P) :
    ∀ (k c : Nat), (k = 0 ∨ (c + k - 1) * P < rows.length) →
      (runPages k { lastResults := rows, pageSize := P, currentPage := c }).2
        = { lastResults := rows, pageSize := P, currentPage := c + k } := by
  intro k
  induction k with
  | zero => intro c _; simp [runPages]
  | succ k ih =>
    intro c hk
    have hck : (c + k) * P < rows.length := by
      rcases hk with h | h
      · exact absurd h (Nat.succ_ne_zero k)
      · have : c + (k + 1) - 1 = c + k := by omega
        rwa [this] at h
    have hcP : c * P < rows.length :=
      Nat.lt_of_le_of_lt (Nat.mul_le_mul_right P (Nat.le_add_right c k)) hck
    have hne : ¬ ((rows.drop (c * P)).take P).isEmpty := by
      rcases hd : rows.drop (c * P) with _ | ⟨x, xs⟩
      · rw [List.drop_eq_nil_iff] at hd
        omega
      · obtain ⟨P0, rfl⟩ : ∃ P0, P = P0 + 1 := ⟨P - 1, by omega⟩
        simp [List.take_succ_cons]
    simp only [runPages, nextPage]
    rw [if_neg hne]
    have hrec := ih (c + 1) (Or.inr (by
      have : c + 1 + k - 1 = c + k := by omega
      rwa [this]))
    simp only at hrec ⊢
    rw [hrec]
    have : c + 1 + k = c + (k + 1) := by omega
    rw [this]

/-- C9: the pagination round-trip (Pagination Cache modelled from the
spec, there being no implementation in the sources): storing N rows with
page size P > 0 and calling `nextPage` ceil(N/P) times returns all N rows
in order, partitioned with no duplicates or omissions; one further call
reports EndOfPages without advancing the cursor. -/
theorem c9_pagination_roundtrip (rows : List Row) (P : Nat) (hP : 0 < P) :
    ((runPages ((rows.length + P - 1) / P)
        (storeResult rows { lastResults := [], pageSize := P, currentPage := 0 })).1).flatten
      = rows ∧
    (runPages ((rows.length + P - 1) / P)
        (storeResult rows { lastResults := [], pageSize := P, currentPage := 0 })).2
      = { lastResults := rows, pageSize := P,
          currentPage := (rows.length + P - 1) / P } ∧
    nextPage { lastResults := rows, pageSize := P,
               currentPage := (rows.length + P - 1) / P }
      = (none, { lastResults := rows, pageSize := P,
                 currentPage := (rows.length + P - 1) / P }) := by
  have hstore : storeResult rows { lastResults := [], pageSize := P, currentPage := 0 }
      = { lastResults := rows, pageSize := P, currentPage := 0 } := rfl
  have hdm := Nat.div_add_mod (rows.length + P - 1) P
  have hmod : (rows.length + P - 1) % P < P := Nat.mod_lt _ hP
  have hKP : rows.length ≤ P * ((rows.length + P - 1) / P) := by
    generalize hM : P * ((rows.length + P - 1) / P) = M at hdm
    omega
  have hflat :
      ((runPages ((rows.length + P - 1) / P)
        (storeResult rows { lastResults := [], pageSize := P, currentPage := 0 })).1).flatten
      = rows := by
    rw [hstore, runPages_flatten rows P hP ((rows.length + P - 1) / P) 0]
    simp only [Nat.zero_mul, List.drop_zero]
    exact List.take_of_length_le (by rw [Nat.mul_comm]; exact hKP)
  have hstate :
      (runPages ((rows.length + P - 1) / P)
        (storeResult rows { lastResults := [], pageSize := P, currentPage := 0 })).2
      = { lastResults := rows, pageSize := P,
          currentPage := (rows.length + P - 1) / P } := by
    rw [hstore]
    rcases Nat.eq_zero_or_pos rows.length with hN0 | hNpos
    · have hK0 : (rows.length + P - 1) / P = 0 := by
        rw [hN0]
        exact Nat.div_eq_of_lt (by omega)
      rw [hK0]
      simp [runPages]
    · have hK1 : 1 ≤ (rows.length + P - 1) / P := by
        rw [Nat.le_div_iff_mul_le hP]
        omega
      obtain ⟨K0, hK0⟩ : ∃ K0, (rows.length + P - 1) / P = K0 + 1 :=
        ⟨(rows.length + P - 1) / P - 1, by omega⟩
      have hK0P : K0 * P < rows.length := by
        rw [hK0] at hdm
        have hexp : P * (K0 + 1) = K0 * P + P := by ring
        rw [hexp] at hdm
        omega
      rw [hK0]
      have := runPages_state rows P hP (K0 + 1) 0 (Or.inr (by
        have : 0 + (K0 + 1) - 1 = K0 := by omega
        rw [this]
        exact hK0P))
      rw [this]
      simp
  refine ⟨hflat, hstate, ?_⟩
  have hdropnil : rows.drop (((rows.length + P - 1) / P) * P) = [] := by
    rw [List.drop_eq_nil_iff, Nat.mul_comm]
    exact hKP
  simp [nextPage, hdropnil]

/-- Witness for C9: three rows with page size two paginate into two pages
and then report EndOfPages. -/
theorem c9_pagination_roundtrip_witness :
    ((runPages ((rows3.length + 2 - 1) / 2)
        (storeResult rows3 { lastResults := [], pageSize := 2, currentPage := 0 })).1).flatten
      = rows3 ∧
    (runPages ((rows3.length + 2 - 1) / 2)
        (storeResult rows3 { lastResults := [], pageSize := 2, currentPage := 0 })).2
      = { lastResults := rows3, pageSize := 2,
          currentPage := (rows3.length + 2 - 1) / 2 } ∧
    nextPage { lastResults := rows3, pageSize := 2,
               currentPage := (rows3.length + 2 - 1) / 2 }
      = (none, { lastResults := rows3, pageSize := 2,
                 currentPage := (rows3.length + 2 - 1) / 2 }) :=
  c9_pagination_roundtrip rows3 2 (by decide)

theorem describe_tables_events (conn : MySQLConn) :
    ∀ (names : List String) (schemaList : List (String × JVal)) (evs : List DBEvent),
      describe_tables conn names = (.ok schemaList, evs) →
      evs = names.map (fun t => DBEvent.exec ("DESCRIBE `" ++ t ++ "`")) := by
  intro names
  induction names with
  | nil =>
    intro schemaList evs h
    simp only [describe_tables, Prod.mk.injEq] at h
    rw [← h.2]
    rfl
  | cons t ts ih =>
    intro schemaList evs h
    simp only [describe_tables] at h
    rcases hrun : conn.runStmt ("DESCRIBE `" ++ t ++ "`") with e | columns
    · simp only [hrun] at h
      exact Except.noConfusion ((Prod.mk.injEq _ _ _ _).mp h).1
    · simp only [hrun] at h
      rcases hmap : columns.mapM column_entry with e | table_schema
      · simp only [hmap] at h
        exact Except.noConfusion ((Prod.mk.injEq _ _ _ _).mp h).1
      · simp only [hmap] at h
        rcases hrec : describe_tables conn ts with ⟨r, evs1⟩
        rcases r with e | rest
        · simp only [hrec] at h
          exact Except.noConfusion ((Prod.mk.injEq _ _ _ _).mp h).1
        · simp only [hrec] at h
          obtain ⟨-, htr⟩ := (Prod.mk.injEq _ _ _ _).mp h
          rw [← htr, List.map_cons]
          rw [ih rest evs1 hrec]

/-- C10: the server-side schema resource introspects in full on every
invocation: whenever a connection and cursor are obtained it executes
`SHOW TABLES` unconditionally, and on a successful run its database trace
is exactly `SHOW TABLES` followed by one `DESCRIBE` per listed table —
`server_get_schema` has no cache parameter, so no memoization exists at
this layer. -/
theorem c10_server_schema_introspection :
    (∀ (dbName : String) (conn : MySQLConn),
        conn.connectOk = .ok () → conn.cursorOk = .ok () →
        DBEvent.exec "SHOW TABLES" ∈ (server_get_schema dbName conn).2) ∧
    (∀ (dbName : String) (conn : MySQLConn) (rows : List Row) (names : List String)
        (v : JVal) (tr : List DBEvent),
        conn.connectOk = .ok () → conn.cursorOk = .ok () →
        conn.runStmt "SHOW TABLES" = .ok rows →
        table_names_of rows = .ok names →
        server_get_schema dbName conn = (.ok v, tr) →
        tr = [DBEvent.connect, DBEvent.exec "SHOW TABLES"] ++
          names.map (fun t => DBEvent.exec ("DESCRIBE `" ++ t ++ "`")) ++
          [DBEvent.close]) := by
  constructor
  · intro dbName conn hconn hcur
    unfold server_get_schema
    rw [hconn, hcur]
    rcases hshow : conn.runStmt "SHOW TABLES" with e | tables
    · simp only [hshow]
      simp
    · simp only [hshow]
      rcases hnames : table_names_of tables with e | names
      · simp only [hnames]
        simp
      · simp only [hnames]
        rcases hdesc : describe_tables conn names with ⟨r, evs⟩
        rcases r with e | schemaList
        · simp only [hdesc]
          simp
        · simp only [hdesc]
          simp
  · intro dbName conn rows names v tr hconn hcur h1 h2 h3
    unfold server_get_schema at h3
    simp only [hconn, hcur, h1, h2] at h3
    rcases hdesc : describe_tables conn names with ⟨r, evs⟩
    rcases r with e | schemaList
    all_goals simp only [hdesc] at h3
    · exact Except.noConfusion ((Prod.mk.injEq _ _ _ _).mp h3).1
    · obtain ⟨-, htr⟩ := (Prod.mk.injEq _ _ _ _).mp h3
      rw [← htr, describe_tables_events conn names schemaList evs hdesc]

/-- Witness for C10: on a one-table database the resource executes
`SHOW TABLES` and one `DESCRIBE`. -/
theorem c10_server_schema_introspection_witness :
    DBEvent.exec "SHOW TABLES" ∈ (server_get_schema "college" conn_one_table).2 ∧
    ([DBEvent.connect, DBEvent.exec "SHOW TABLES", DBEvent.exec "DESCRIBE `users`",
      DBEvent.close] : List DBEvent) =
      [DBEvent.connect, DBEvent.exec "SHOW TABLES"] ++
        (["users"].map (fun t => DBEvent.exec ("DESCRIBE `" ++ t ++ "`"))) ++
        [DBEvent.close] :=
  ⟨c10_server_schema_introspection.1 "college" conn_one_table (by rfl) (by rfl),
   c10_server_schema_introspection.2 "college" conn_one_table
     [[("Tables_in_college", .str "users")]] ["users"]
     (.obj [("database", .str "college"),
            ("tables", .obj [("users", .arr [.obj [("name", .str "id"),
              ("type", .str "int"), ("null", .str "NO"), ("key", .str "PRI"),
              ("default", .null), ("extra", .str "")]])])])
     [DBEvent.connect, DBEvent.exec "SHOW TABLES", DBEvent.exec "DESCRIBE `users`",
      DBEvent.close]
     (by rfl) (by rfl) (by rfl) (by rfl) (by rfl)⟩
